import Mathlib

/-!
Verification development for the music library client, centred on the bulk
song ingestion pipeline (AdminDashboard: processFile, handleProcessQueue,
handleAddSongsToLibrary), the single-song fetch path
(SingleSongUploader.handleFetchInfo) and the commit path (App.addSongs).

The TypeScript source is embedded shallowly: React state updates become
explicit state passing, thrown exceptions become Except, and the external
services (model inference, catalog search, artwork CDN) become explicit
environment records supplying their responses.
-/

/-! ## Statuses and staged files (AdminDashboard) -/

/-- Status of a staged file: the union type of StagedFile.status. -/
inductive Status where
  | pending
  | processing
  | success
  | error
  deriving DecidableEq, Repr

/-- A selected audio file; the pipeline reads only its name (for the
extraction prompt), so the embedding keeps the name. -/
structure FileData where
  name : String
  deriving DecidableEq, Repr

/-- The songDetails record resolved by processFile. -/
structure SongDetails where
  title : String
  artist : String
  album : String
  deriving DecidableEq, Repr

/-- A File built from a downloaded blob: new File([artBlob], "cover.jpg",
with the blob content type). -/
structure CoverFile where
  name : String
  type : String
  deriving DecidableEq, Repr

/-- The StagedFile interface of AdminDashboard. -/
structure StagedFile where
  id : String
  file : FileData
  status : Status
  songDetails : Option SongDetails
  coverArtFile : Option CoverFile
  error : Option String
  deriving DecidableEq, Repr

/-! ## External service responses -/

/-- The parsed JSON object returned by the model inference call; the schema
requires string fields title and artist, but they may still be empty. -/
structure GeminiExtraction where
  title : String
  artist : String
  deriving DecidableEq, Repr

/-- One track record of the catalog response. The JSON fields may be absent
(undefined), hence Option; an empty string is also falsy in the source. -/
structure ItunesResult where
  trackName : Option String
  artistName : Option String
  collectionName : Option String
  artworkUrl100 : Option String
  deriving DecidableEq, Repr

/-- The catalog search response. The resultCount field of the JSON always
equals the length of the results array, so the source check
resultCount === 0 is embedded as results = []. -/
structure ItunesResponse where
  ok : Bool
  results : List ItunesResult
  deriving DecidableEq, Repr

/-- Response to a plain GET of a binary blob (the artwork CDN): its status
and the content type of the body. -/
structure HttpBlobResponse where
  ok : Bool
  blobType : String
  deriving DecidableEq, Repr

/-- The external world as seen by one processFile run: the model extraction
for the prompt built from the file name, the catalog response for the
derived search term, and the CDN response for each URL. -/
structure ProcessEnv where
  gemini : GeminiExtraction
  itunes : ItunesResponse
  artFetch : String → HttpBlobResponse

/-! ## JavaScript string primitives used by the source -/

/-- JS (x || fallback) on an optional string field: undefined and the empty
string are falsy. -/
def strOrElse (v : Option String) (fb : String) : String :=
  match v with
  | none => fb
  | some s => if s = "" then fb else s

/-- Boolean prefix test on character lists. -/
def isPref : List Char → List Char → Bool
  | [], _ => true
  | _ :: _, [] => false
  | p :: ps, c :: cs => p == c && isPref ps cs

/-- Worker for replaceFirst; replaces the first occurrence of pat by rep. -/
def replaceFirstAux (pat rep : List Char) : List Char → List Char
  | [] => if pat.isEmpty then rep else []
  | c :: cs =>
    if isPref pat (c :: cs) then rep ++ (c :: cs).drop pat.length
    else c :: replaceFirstAux pat rep cs

/-- JS String.replace with a string pattern: replaces only the first
occurrence of pat (the source uses it to turn 100x100 into 600x600). -/
def replaceFirst (s pat rep : String) : String :=
  String.mk (replaceFirstAux pat.data rep.data s.data)

/-- Boolean substring test on character lists. -/
def containsSub : List Char → List Char → Bool
  | _, [] => true
  | [], _ :: _ => false
  | c :: cs, p :: ps => isPref (p :: ps) (c :: cs) || containsSub cs (p :: ps)

/-- Whether pat occurs as a substring of s. -/
def containsStr (s pat : String) : Bool :=
  containsSub s.data pat.data

/-! ## The per-item pipeline: processFile -/

/-- BulkUploader.processFile. Thrown Error messages become Except.error;
the happy path returns the resolved songDetails and the cover art file. -/
def processFile (env : ProcessEnv) (file : FileData) :
    Except String (SongDetails × CoverFile) :=
  let title := env.gemini.title
  let artist := env.gemini.artist
  if title = "" || artist = "" then
    Except.error "AI could not determine title and artist."
  else if !env.itunes.ok then
    Except.error "iTunes search failed."
  else
    match env.itunes.results with
    | [] => Except.error "Song not found on iTunes."
    | songData :: _ =>
      let songDetails : SongDetails :=
        { title := strOrElse songData.trackName title
          artist := strOrElse songData.artistName artist
          album := strOrElse songData.collectionName title }
      let highResArtworkUrl :=
        replaceFirst (strOrElse songData.artworkUrl100 "") "100x100" "600x600"
      if highResArtworkUrl = "" then
        Except.error "Cover art not found."
      else
        let artResponse := env.artFetch highResArtworkUrl
        if !artResponse.ok then
          Except.error "Failed to download cover art."
        else
          Except.ok (songDetails, { name := "cover.jpg", type := artResponse.blobType })

/-! ## The batch processor: handleProcessQueue -/

/-- One functional update of the staged list, as performed by
setStagedFiles(prev => prev.map(sf => sf.id === targetId ? f(sf) : sf)). -/
def updateById (files : List StagedFile) (targetId : String)
    (f : StagedFile → StagedFile) : List StagedFile :=
  files.map fun sf => if sf.id = targetId then f sf else sf

/-- The catch branch attaches e.message || "An unknown error occurred". -/
def errMessage (msg : String) : String :=
  if msg = "" then "An unknown error occurred" else msg

/-- One iteration of the for-loop of handleProcessQueue, acting on the
current staged list for one entry of the loop snapshot: skip unless the
snapshot entry is pending, otherwise mark processing, run processFile and
record its outcome. -/
def processQueueStep (envs : FileData → ProcessEnv) (files : List StagedFile)
    (stagedFile : StagedFile) : List StagedFile :=
  if stagedFile.status ≠ Status.pending then files
  else
    let files1 := updateById files stagedFile.id fun sf =>
      { sf with status := Status.processing }
    match processFile (envs stagedFile.file) stagedFile.file with
    | Except.ok (songDetails, coverArtFile) =>
        updateById files1 stagedFile.id fun sf =>
          { sf with status := Status.success, songDetails := some songDetails,
                    coverArtFile := some coverArtFile }
    | Except.error e =>
        updateById files1 stagedFile.id fun sf =>
          { sf with status := Status.error, error := some (errMessage e) }

/-- The loop of handleProcessQueue: fold the steps over the snapshot list,
incrementing the processed counter on every iteration (skip or not). -/
def processQueueGo (envs : FileData → ProcessEnv) :
    List StagedFile → List StagedFile × Nat → List StagedFile × Nat
  | [], acc => acc
  | sf :: rest, acc =>
      processQueueGo envs rest (processQueueStep envs acc.1 sf, acc.2 + 1)

/-- The BulkUploader component state touched by the processor. -/
structure QueueState where
  stagedFiles : List StagedFile
  processedCount : Nat
  isProcessing : Bool
  deriving DecidableEq, Repr

/-- BulkUploader.handleProcessQueue: iterate over the staged list snapshot,
then clear the isProcessing flag. -/
def handleProcessQueue (envs : FileData → ProcessEnv) (s : QueueState) : QueueState :=
  let r := processQueueGo envs s.stagedFiles (s.stagedFiles, 0)
  { stagedFiles := r.1, processedCount := r.2, isProcessing := false }

/-- Net effect of one processed item on its own record: the transient
processing status is overwritten by the outcome of processFile. -/
def applyOutcome (outcome : Except String (SongDetails × CoverFile))
    (sf : StagedFile) : StagedFile :=
  match outcome with
  | Except.ok (d, c) =>
      { sf with status := Status.success, songDetails := some d, coverArtFile := some c }
  | Except.error e =>
      { sf with status := Status.error, error := some (errMessage e) }

/-- The per-item summary of a whole handleProcessQueue run: pending items
receive the outcome of their processFile call, all others are untouched. -/
def itemResult (envs : FileData → ProcessEnv) (sf : StagedFile) : StagedFile :=
  if sf.status = Status.pending then
    applyOutcome (processFile (envs sf.file) sf.file) sf
  else sf

/-! ## The commit path: handleAddSongsToLibrary and App.addSongs -/

/-- The SongData record handed to addSongs. -/
structure SongData where
  title : String
  artist : String
  album : String
  audioFile : FileData
  coverArtFile : CoverFile
  deriving DecidableEq, Repr

/-- Builds the SongData of one successful staged file. The source reads
sf.songDetails! and sf.coverArtFile! with non-null assertions; success
items always carry both, the defaults only fill the absent case. -/
def stagedToSongData (sf : StagedFile) : SongData :=
  { title := (sf.songDetails.getD { title := "", artist := "", album := "" }).title
    artist := (sf.songDetails.getD { title := "", artist := "", album := "" }).artist
    album := (sf.songDetails.getD { title := "", artist := "", album := "" }).album
    audioFile := sf.file
    coverArtFile := sf.coverArtFile.getD { name := "", type := "" } }

/-- Result of a handleAddSongsToLibrary call: the new component state and
the list of records submitted to the store, if any call was made. -/
structure CommitResult where
  newState : QueueState
  storeWrite : Option (List SongData)
  deriving DecidableEq, Repr

/-- BulkUploader.handleAddSongsToLibrary: filter the successful items; if
none, return without any store call; otherwise submit their SongData, then
clear the staged list and reset the progress counter. -/
def handleAddSongsToLibrary (s : QueueState) : CommitResult :=
  let successfulFiles := s.stagedFiles.filter fun sf => decide (sf.status = Status.success)
  if successfulFiles.length = 0 then
    { newState := s, storeWrite := none }
  else
    { newState := { stagedFiles := [], processedCount := 0, isProcessing := s.isProcessing }
      storeWrite := some (successfulFiles.map stagedToSongData) }

/-- The record put into the object store by App.addSongs. -/
structure StoredSong where
  id : String
  title : String
  artist : String
  album : String
  audioFile : FileData
  coverArtFile : CoverFile
  deriving DecidableEq, Repr

/-- The display record kept in the App songs state. -/
structure Song where
  id : String
  title : String
  artist : String
  album : String
  audioSrc : String
  coverArtSrc : String
  deriving DecidableEq, Repr

/-- Id generation of App.addSongs: new Date().toISOString() concatenated
with a hyphen and the title. -/
def mkSongId (timestamp title : String) : String :=
  timestamp ++ "-" ++ title

/-- Object URLs are modelled by their allocation index within one addSongs
run: the n-th URL.createObjectURL call. -/
def objUrl (n : Nat) : String :=
  "blob:" ++ toString n

/-- The newStoredSongs array built by the forEach of App.addSongs; clock i
is the ISO timestamp observed by the i-th iteration. -/
def prepareStoredSongs (clock : Nat → String) (data : List SongData) : List StoredSong :=
  data.enum.map fun p =>
    { id := mkSongId (clock p.1) p.2.title, title := p.2.title, artist := p.2.artist
      album := p.2.album, audioFile := p.2.audioFile, coverArtFile := p.2.coverArtFile }

/-- The newDisplaySongs array built by the same forEach: iteration i
creates the object URLs with allocation indices 2i and 2i+1. -/
def prepareDisplaySongs (clock : Nat → String) (data : List SongData) : List Song :=
  data.enum.map fun p =>
    { id := mkSongId (clock p.1) p.2.title, title := p.2.title, artist := p.2.artist
      album := p.2.album, audioSrc := objUrl (2 * p.1), coverArtSrc := objUrl (2 * p.1 + 1) }

/-- Observable result of one App.addSongs call: the songs state afterwards,
the records submitted to addSongsToDB, and the object URLs created and
revoked during the call. -/
structure AddSongsResult where
  songs : List Song
  stored : List StoredSong
  created : List String
  revoked : List String
  deriving DecidableEq, Repr

/-- App.addSongs: build the store records and display records (creating two
object URLs per song), submit to the database; on success append to the
songs state, on failure leave the state alone and revoke every created
object URL. dbOk tells whether the addSongsToDB promise resolved. -/
def addSongs (clock : Nat → String) (dbOk : Bool) (prevSongs : List Song)
    (newSongsData : List SongData) : AddSongsResult :=
  let newStoredSongs := prepareStoredSongs clock newSongsData
  let newDisplaySongs := prepareDisplaySongs clock newSongsData
  let createdUrls := newDisplaySongs.flatMap fun song => [song.audioSrc, song.coverArtSrc]
  if dbOk then
    { songs := prevSongs ++ newDisplaySongs, stored := newStoredSongs
      created := createdUrls, revoked := [] }
  else
    { songs := prevSongs, stored := newStoredSongs
      created := createdUrls, revoked := createdUrls }

/-! ## The single-song fetch path: SingleSongUploader.handleFetchInfo -/

/-- One track of the catalog response as read by handleFetchInfo; this path
reads the fields directly, so the embedding covers responses carrying them. -/
structure SingleResult where
  artistName : String
  collectionName : String
  artworkUrl100 : String
  deriving DecidableEq, Repr

/-- External responses seen by one handleFetchInfo run. -/
structure FetchInfoEnv where
  searchOk : Bool
  results : List SingleResult
  artFetch : String → HttpBlobResponse

/-- The SingleSongUploader form state touched by handleFetchInfo. -/
structure SingleState where
  title : String
  artist : String
  album : String
  coverArtFile : Option CoverFile
  error : Option String
  deriving DecidableEq, Repr

/-- SingleSongUploader.handleFetchInfo: guard on an empty title, clear the
error, query the catalog, copy artist and album from the top result, then
fetch the upgraded artwork URL and attach its body as the cover art file.
The source checks response.ok for the catalog call but performs no such
check on artResponse before taking its blob. -/
def handleFetchInfo (env : FetchInfoEnv) (s : SingleState) : SingleState :=
  if s.title = "" then
    { s with error := some "Please enter a song title to fetch info." }
  else
    let s1 := { s with error := none }
    if !env.searchOk then
      { s1 with error := some "Failed to fetch from iTunes." }
    else
      match env.results with
      | [] =>
          { s1 with error := some ("No results found for \"" ++ s.title ++ "\".") }
      | result :: _ =>
          let s2 := { s1 with artist := result.artistName, album := result.collectionName }
          let highResArtworkUrl := replaceFirst result.artworkUrl100 "100x100" "600x600"
          let artResponse := env.artFetch highResArtworkUrl
          { s2 with coverArtFile := some { name := "cover.jpg", type := artResponse.blobType } }

/-! ## Helper lemmas about the batch processor -/

theorem applyOutcome_id (o : Except String (SongDetails × CoverFile)) (sf : StagedFile) :
    (applyOutcome o sf).id = sf.id := by
  cases o with
  | ok v => obtain ⟨d, c⟩ := v; rfl
  | error e => rfl

theorem itemResult_id (envs : FileData → ProcessEnv) (sf : StagedFile) :
    (itemResult envs sf).id = sf.id := by
  unfold itemResult
  by_cases h : sf.status = Status.pending
  · rw [if_pos h, applyOutcome_id]
  · rw [if_neg h]

theorem itemResult_of_not_pending (envs : FileData → ProcessEnv) (sf : StagedFile)
    (h : sf.status ≠ Status.pending) : itemResult envs sf = sf := by
  unfold itemResult
  rw [if_neg h]

theorem applyOutcome_status (o : Except String (SongDetails × CoverFile)) (sf : StagedFile) :
    (applyOutcome o sf).status = Status.success ∨ (applyOutcome o sf).status = Status.error := by
  cases o with
  | ok v => obtain ⟨d, c⟩ := v; left; rfl
  | error e => right; rfl

theorem updateById_updateById (files : List StagedFile) (t : String)
    (f g : StagedFile → StagedFile) (hf : ∀ sf, (f sf).id = sf.id) :
    updateById (updateById files t f) t g =
      files.map fun x => if x.id = t then g (f x) else x := by
  unfold updateById
  rw [List.map_map]
  induction files with
  | nil => rfl
  | cons a l ih =>
    simp only [List.map_cons, Function.comp_apply] at ih ⊢
    by_cases h : a.id = t
    · simp [h, hf, ih]
    · simp [h, ih]

theorem processQueueStep_eq (envs : FileData → ProcessEnv) (files : List StagedFile)
    (sf : StagedFile) :
    processQueueStep envs files sf =
      if sf.status = Status.pending then
        files.map fun x =>
          if x.id = sf.id then applyOutcome (processFile (envs sf.file) sf.file) x else x
      else files := by
  cases hpf : processFile (envs sf.file) sf.file with
  | ok v =>
    obtain ⟨d, c⟩ := v
    by_cases hp : sf.status = Status.pending
    · simp only [processQueueStep, hp, hpf, ne_eq, not_true_eq_false, if_false, if_true]
      rw [updateById_updateById files sf.id
        (fun sf => { sf with status := Status.processing }) _ fun _ => rfl]
      apply List.map_congr_left
      intro x _
      by_cases hx : x.id = sf.id <;> simp [hx, applyOutcome]
    · simp [processQueueStep, hp]
  | error e =>
    by_cases hp : sf.status = Status.pending
    · simp only [processQueueStep, hp, hpf, ne_eq, not_true_eq_false, if_false, if_true]
      rw [updateById_updateById files sf.id
        (fun sf => { sf with status := Status.processing }) _ fun _ => rfl]
      apply List.map_congr_left
      intro x _
      by_cases hx : x.id = sf.id <;> simp [hx, applyOutcome]
    · simp [processQueueStep, hp]

theorem map_cond_of_not_mem (g : StagedFile → StagedFile) (t : String)
    (l : List StagedFile) (h : ∀ x ∈ l, x.id ≠ t) :
    (l.map fun x => if x.id = t then g x else x) = l := by
  induction l with
  | nil => rfl
  | cons a l ih =>
    simp only [List.map_cons]
    rw [if_neg (h a (List.mem_cons_self a l)), ih fun x hx => h x (List.mem_cons_of_mem a hx)]

theorem map_ids_itemResult (envs : FileData → ProcessEnv) (l : List StagedFile) :
    ((l.map (itemResult envs)).map fun sf => sf.id) = l.map fun sf => sf.id := by
  induction l with
  | nil => rfl
  | cons a l ih => simp only [List.map_cons, itemResult_id, ih]

theorem processQueueGo_spec (envs : FileData → ProcessEnv) :
    ∀ (rest done : List StagedFile) (n : Nat),
      (((done ++ rest).map fun sf => sf.id)).Nodup →
      processQueueGo envs rest (done.map (itemResult envs) ++ rest, n) =
        ((done ++ rest).map (itemResult envs), n + rest.length) := by
  intro rest
  induction rest with
  | nil =>
    intro done n _
    simp [processQueueGo]
  | cons sf rest ih =>
    intro done n hnd
    have hndflat : ((done.map fun x => x.id) ++ sf.id :: (rest.map fun x => x.id)).Nodup := by
      simpa [List.map_append] using hnd
    obtain ⟨hd1, hd2, hdisj⟩ := List.nodup_append.mp hndflat
    have hsfrest : sf.id ∉ rest.map fun x => x.id := (List.nodup_cons.mp hd2).1
    have hsfdone : ∀ x ∈ done, x.id ≠ sf.id := by
      intro x hx heq
      exact hdisj (List.mem_map_of_mem (fun y => y.id) hx) (by rw [heq]; exact List.mem_cons_self _ _)
    have hrest : ∀ x ∈ rest, x.id ≠ sf.id := by
      intro x hx heq
      exact hsfrest (heq ▸ List.mem_map_of_mem (fun y => y.id) hx)
    have hstep : processQueueStep envs (done.map (itemResult envs) ++ sf :: rest) sf =
        done.map (itemResult envs) ++ itemResult envs sf :: rest := by
      rw [processQueueStep_eq]
      by_cases hp : sf.status = Status.pending
      · rw [if_pos hp, List.map_append, List.map_cons, if_pos rfl]
        rw [map_cond_of_not_mem _ _ _ (by
          intro x hx
          obtain ⟨y, hy, hxy⟩ := List.mem_map.mp hx
          rw [← hxy, itemResult_id]
          exact hsfdone y hy)]
        rw [map_cond_of_not_mem _ _ _ hrest]
        rw [itemResult, if_pos hp]
      · rw [if_neg hp, itemResult_of_not_pending envs sf hp]
    show processQueueGo envs rest
        (processQueueStep envs (done.map (itemResult envs) ++ sf :: rest) sf, n + 1) = _
    rw [hstep]
    have hsplit : done.map (itemResult envs) ++ itemResult envs sf :: rest =
        (done ++ [sf]).map (itemResult envs) ++ rest := by
      simp [List.map_append]
    rw [hsplit]
    have hnd' : (((done ++ [sf]) ++ rest).map fun x => x.id).Nodup := by
      simpa [List.append_assoc] using hnd
    rw [ih (done ++ [sf]) (n + 1) hnd']
    simp [List.append_assoc, Nat.add_assoc, Nat.add_comm 1 rest.length]

/-- The whole-run characterization of handleProcessQueue: when the staged
ids are distinct, the run maps itemResult over the staged list, counts
every item, and ends with the isProcessing flag cleared. -/
theorem handleProcessQueue_spec (envs : FileData → ProcessEnv) (s : QueueState)
    (hnd : ((s.stagedFiles.map fun sf => sf.id)).Nodup) :
    handleProcessQueue envs s =
      { stagedFiles := s.stagedFiles.map (itemResult envs)
        processedCount := s.stagedFiles.length
        isProcessing := false } := by
  unfold handleProcessQueue
  have h := processQueueGo_spec envs s.stagedFiles [] 0 (by simpa using hnd)
  simp only [List.map_nil, List.nil_append, Nat.zero_add] at h
  rw [h]

/-! ## Claim C1: which items does a whole-batch reprocess re-attempt? -/

def exC1track : ItunesResult :=
  { trackName := some "Let It Be", artistName := some "The Beatles"
    collectionName := some "Let It Be", artworkUrl100 := some "http://x/100x100bb.jpg" }

/-- An environment in which every staged file would process successfully. -/
def exC1envs : FileData → ProcessEnv := fun _ =>
  { gemini := { title := "Let It Be", artist := "The Beatles" }
    itunes := { ok := true, results := [exC1track] }
    artFetch := fun _ => { ok := true, blobType := "image/jpeg" } }

def exC1success : StagedFile :=
  { id := "a", file := { name := "a.mp3" }, status := Status.success
    songDetails := some { title := "Yesterday", artist := "The Beatles", album := "Help!" }
    coverArtFile := some { name := "cover.jpg", type := "image/jpeg" }, error := none }

def exC1error : StagedFile :=
  { id := "b", file := { name := "b.mp3" }, status := Status.error
    songDetails := none, coverArtFile := none, error := some "Song not found on iTunes." }

def exC1state : QueueState :=
  { stagedFiles := [exC1success, exC1error], processedCount := 0, isProcessing := false }

/-- C1, counterexample: on a staged batch of one success item and one error
item, handleProcessQueue re-attempts nothing. Both items come out exactly
as they went in, although processing the error item in this environment
would succeed; so the error item is not re-attempted, contrary to the
claim. -/
theorem processQueue_error_not_reattempted_cex :
    handleProcessQueue exC1envs exC1state =
      { stagedFiles := [exC1success, exC1error], processedCount := 2, isProcessing := false } ∧
    processFile (exC1envs exC1error.file) exC1error.file =
      Except.ok ({ title := "Let It Be", artist := "The Beatles", album := "Let It Be" },
                 { name := "cover.jpg", type := "image/jpeg" }) := by
  refine ⟨by decide, rfl⟩

/-- C1, amended: a whole-batch reprocess re-attempts only items whose
status is pending; any item whose status is not pending — a success item
and an error item alike — is left untouched at its position. -/
theorem processQueue_skips_non_pending (envs : FileData → ProcessEnv) (s : QueueState)
    (hnd : ((s.stagedFiles.map fun sf => sf.id)).Nodup)
    (i : Nat) (sf : StagedFile) (hget : s.stagedFiles[i]? = some sf)
    (hsf : sf.status ≠ Status.pending) :
    (handleProcessQueue envs s).stagedFiles[i]? = some sf := by
  rw [handleProcessQueue_spec envs s hnd]
  simp only [List.getElem?_map, hget, Option.map_some']
  rw [itemResult_of_not_pending envs sf hsf]

theorem processQueue_skips_non_pending_witness :
    (((exC1state.stagedFiles.map fun sf => sf.id)).Nodup ∧
      exC1state.stagedFiles[1]? = some exC1error ∧
      exC1error.status ≠ Status.pending) ∧
    (handleProcessQueue exC1envs exC1state).stagedFiles[1]? = some exC1error :=
  ⟨⟨by decide, by decide, by decide⟩,
    processQueue_skips_non_pending exC1envs exC1state (by decide) 1 exC1error
      (by decide) (by decide)⟩

/-! ## Claim C2: an all-pending batch ends all-terminal -/

/-- C2: on a batch whose items are all pending (with distinct staged ids),
after handleProcessQueue every item carries the outcome of its own
processFile run — so a failure of one item cannot prevent the others from
being processed — and every status is success or error. -/
theorem processQueue_all_terminal (envs : FileData → ProcessEnv) (s : QueueState)
    (hnd : ((s.stagedFiles.map fun sf => sf.id)).Nodup)
    (hpend : ∀ sf ∈ s.stagedFiles, sf.status = Status.pending) :
    (handleProcessQueue envs s).stagedFiles = s.stagedFiles.map (itemResult envs) ∧
    ∀ sf ∈ (handleProcessQueue envs s).stagedFiles,
      sf.status = Status.success ∨ sf.status = Status.error := by
  have hspec := handleProcessQueue_spec envs s hnd
  rw [hspec]
  refine ⟨rfl, ?_⟩
  intro sf hsf
  obtain ⟨x, hx, hxe⟩ := List.mem_map.mp hsf
  subst hxe
  rw [itemResult, if_pos (hpend x hx)]
  exact applyOutcome_status _ _

def exC2track : ItunesResult :=
  { trackName := some "Let It Be", artistName := some "The Beatles"
    collectionName := some "Let It Be", artworkUrl100 := some "http://x/100x100bb.jpg" }

/-- An environment that fails the lookup for bad.mp3 and succeeds for any
other file. -/
def exC2envs : FileData → ProcessEnv := fun f =>
  if f.name = "bad.mp3" then
    { gemini := { title := "Unknown", artist := "Nobody" }
      itunes := { ok := true, results := [] }
      artFetch := fun _ => { ok := true, blobType := "image/jpeg" } }
  else
    { gemini := { title := "Let It Be", artist := "The Beatles" }
      itunes := { ok := true, results := [exC2track] }
      artFetch := fun _ => { ok := true, blobType := "image/jpeg" } }

def exC2pendA : StagedFile :=
  { id := "a", file := { name := "bad.mp3" }, status := Status.pending
    songDetails := none, coverArtFile := none, error := none }

def exC2pendB : StagedFile :=
  { id := "b", file := { name := "good.mp3" }, status := Status.pending
    songDetails := none, coverArtFile := none, error := none }

def exC2state : QueueState :=
  { stagedFiles := [exC2pendA, exC2pendB], processedCount := 0, isProcessing := false }

theorem processQueue_all_terminal_witness :
    (((exC2state.stagedFiles.map fun sf => sf.id)).Nodup ∧
      ∀ sf ∈ exC2state.stagedFiles, sf.status = Status.pending) ∧
    (∀ sf ∈ (handleProcessQueue exC2envs exC2state).stagedFiles,
      sf.status = Status.success ∨ sf.status = Status.error) ∧
    ((handleProcessQueue exC2envs exC2state).stagedFiles.map fun sf => sf.status) =
      [Status.error, Status.success] :=
  ⟨⟨by decide, by decide⟩,
    (processQueue_all_terminal exC2envs exC2state (by decide) (by decide)).2,
    by decide⟩

/-! ## Claim C3: metadata resolution from the top catalog result -/

/-- C3: whenever the catalog lookup yields a top result and the per-item
pipeline completes, the resolved songDetails take trackName with fallback
to the extracted title, artistName with fallback to the extracted artist,
and collectionName with fallback to the extracted title. -/
theorem processFile_metadata_fallbacks (env : ProcessEnv) (file : FileData)
    (songData : ItunesResult) (rest : List ItunesResult) (d : SongDetails) (c : CoverFile)
    (hres : env.itunes.results = songData :: rest)
    (hok : processFile env file = Except.ok (d, c)) :
    d = { title := strOrElse songData.trackName env.gemini.title
          artist := strOrElse songData.artistName env.gemini.artist
          album := strOrElse songData.collectionName env.gemini.title } := by
  simp only [processFile, hres] at hok
  split at hok
  · exact absurd hok (by simp)
  · split at hok
    · exact absurd hok (by simp)
    · split at hok
      · exact absurd hok (by simp)
      · split at hok
        · exact absurd hok (by simp)
        · rw [Except.ok.injEq, Prod.mk.injEq] at hok
          exact hok.1.symm

def exC3track : ItunesResult :=
  { trackName := some "Yesterday", artistName := some "The Beatles"
    collectionName := some "Help!", artworkUrl100 := some "http://x/100x100bb.jpg" }

def exC3env : ProcessEnv :=
  { gemini := { title := "Yesterday", artist := "The Beatles" }
    itunes := { ok := true, results := [exC3track] }
    artFetch := fun _ => { ok := true, blobType := "image/jpeg" } }

theorem processFile_metadata_fallbacks_witness :
    (exC3env.itunes.results = exC3track :: [] ∧
      processFile exC3env { name := "yesterday.mp3" } =
        Except.ok ({ title := "Yesterday", artist := "The Beatles", album := "Help!" },
                   { name := "cover.jpg", type := "image/jpeg" })) ∧
    ({ title := "Yesterday", artist := "The Beatles", album := "Help!" } : SongDetails) =
      { title := strOrElse exC3track.trackName exC3env.gemini.title
        artist := strOrElse exC3track.artistName exC3env.gemini.artist
        album := strOrElse exC3track.collectionName exC3env.gemini.title } :=
  ⟨⟨rfl, rfl⟩,
    processFile_metadata_fallbacks exC3env { name := "yesterday.mp3" } exC3track []
      { title := "Yesterday", artist := "The Beatles", album := "Help!" }
      { name := "cover.jpg", type := "image/jpeg" } rfl rfl⟩

/-! ## Claim C4: the zero-match error message -/

def exC4item : StagedFile :=
  { id := "y", file := { name := "yesterday.mp3" }, status := Status.pending
    songDetails := none, coverArtFile := none, error := none }

/-- An environment whose catalog lookup returns zero matches for the
extracted title Yesterday. -/
def exC4envs : FileData → ProcessEnv := fun _ =>
  { gemini := { title := "Yesterday", artist := "The Beatles" }
    itunes := { ok := true, results := [] }
    artFetch := fun _ => { ok := true, blobType := "image/jpeg" } }

def exC4state : QueueState :=
  { stagedFiles := [exC4item], processedCount := 0, isProcessing := false }

/-- C4, counterexample: on a zero-match lookup the item does end in error,
but the attached message is the fixed string, which contains neither the
extracted title Yesterday nor the file name — it does not identify the
title that was not found. -/
theorem lookupMiss_message_cex :
    (handleProcessQueue exC4envs exC4state).stagedFiles =
      [{ exC4item with status := Status.error, error := some "Song not found on iTunes." }] ∧
    containsStr "Song not found on iTunes." "Yesterday" = false ∧
    containsStr "Song not found on iTunes." exC4item.file.name = false := by
  refine ⟨by decide, by decide, by decide⟩

/-- C4, amended: a staged item whose catalog lookup returns zero matches
ends in error, with the constant message Song not found on iTunes.
attached (a message that does not name the looked-up title). -/
theorem lookupMiss_fixed_message (envs : FileData → ProcessEnv) (s : QueueState)
    (hnd : ((s.stagedFiles.map fun sf => sf.id)).Nodup)
    (i : Nat) (sf : StagedFile) (hget : s.stagedFiles[i]? = some sf)
    (hp : sf.status = Status.pending)
    (ht : (envs sf.file).gemini.title ≠ "") (ha : (envs sf.file).gemini.artist ≠ "")
    (hok : (envs sf.file).itunes.ok = true)
    (hres : (envs sf.file).itunes.results = []) :
    (handleProcessQueue envs s).stagedFiles[i]? =
      some { sf with status := Status.error, error := some "Song not found on iTunes." } := by
  rw [handleProcessQueue_spec envs s hnd]
  simp only [List.getElem?_map, hget, Option.map_some']
  rw [itemResult, if_pos hp]
  have hpf : processFile (envs sf.file) sf.file = Except.error "Song not found on iTunes." := by
    simp only [processFile, hres]
    rw [if_neg (by simp [ht, ha]), if_neg (by simp [hok])]
  rw [hpf]
  simp [applyOutcome, errMessage]

theorem lookupMiss_fixed_message_witness :
    (((exC4state.stagedFiles.map fun sf => sf.id)).Nodup ∧
      exC4state.stagedFiles[0]? = some exC4item ∧
      exC4item.status = Status.pending ∧
      (exC4envs exC4item.file).gemini.title ≠ "" ∧
      (exC4envs exC4item.file).gemini.artist ≠ "" ∧
      (exC4envs exC4item.file).itunes.ok = true ∧
      (exC4envs exC4item.file).itunes.results = []) ∧
    (handleProcessQueue exC4envs exC4state).stagedFiles[0]? =
      some { exC4item with status := Status.error, error := some "Song not found on iTunes." } :=
  ⟨⟨by decide, by decide, by decide, by decide, by decide, by decide, rfl⟩,
    lookupMiss_fixed_message exC4envs exC4state (by decide) 0 exC4item (by decide)
      (by decide) (by decide) (by decide) (by decide) rfl⟩

/-! ## Claim C5: the artwork URL substitution and its failure condition -/

theorem replaceFirstAux_ne_nil (pat rep : List Char) (hrep : rep ≠ []) :
    ∀ s : List Char, s ≠ [] → replaceFirstAux pat rep s ≠ [] := by
  intro s hs
  cases s with
  | nil => exact absurd rfl hs
  | cons c cs =>
    show (if isPref pat (c :: cs) then rep ++ (c :: cs).drop pat.length
          else c :: replaceFirstAux pat rep cs) ≠ []
    by_cases h : isPref pat (c :: cs)
    · rw [if_pos h]
      intro hcontra
      exact hrep (List.append_eq_nil.mp hcontra).1
    · rw [if_neg h]
      simp

theorem replaceFirst_eq_empty_iff (s : String) :
    (replaceFirst s "100x100" "600x600" = "") ↔ s = "" := by
  cases s with
  | mk data =>
    cases data with
    | nil => constructor <;> (intro; rfl)
    | cons c cs =>
      constructor
      · intro h
        exfalso
        apply replaceFirstAux_ne_nil "100x100".data "600x600".data (by decide)
          (c :: cs) (by simp)
        have hd := congrArg String.data h
        simpa [replaceFirst] using hd
      · intro h
        exact absurd (congrArg String.data h) (by simp)

/-- C5: once the pipeline holds a top catalog result, the high-resolution
URL it fetches is the artwork URL of the result with the first 100x100
token substituted by 600x600 — the outcome depends on the CDN only through
its response at exactly that URL — and the run fails with the cover-art
error precisely when the result carries no artwork URL (absent or empty). -/
theorem artworkUrl_substitution (env : ProcessEnv) (file : FileData)
    (songData : ItunesResult) (rest : List ItunesResult)
    (hres : env.itunes.results = songData :: rest)
    (ht : env.gemini.title ≠ "") (ha : env.gemini.artist ≠ "")
    (hok : env.itunes.ok = true) :
    (processFile env file = Except.error "Cover art not found." ↔
      (songData.artworkUrl100 = none ∨ songData.artworkUrl100 = some "")) ∧
    ∀ env2 : ProcessEnv, env2.gemini = env.gemini → env2.itunes = env.itunes →
      env2.artFetch (replaceFirst (strOrElse songData.artworkUrl100 "") "100x100" "600x600") =
        env.artFetch (replaceFirst (strOrElse songData.artworkUrl100 "") "100x100" "600x600") →
      processFile env2 file = processFile env file := by
  constructor
  · simp only [processFile, hres]
    rw [if_neg (by simp [ht, ha]), if_neg (by simp [hok])]
    constructor
    · intro h
      by_cases hurl :
          replaceFirst (strOrElse songData.artworkUrl100 "") "100x100" "600x600" = ""
      · have hempty : strOrElse songData.artworkUrl100 "" = "" :=
          (replaceFirst_eq_empty_iff _).mp hurl
        cases hart : songData.artworkUrl100 with
        | none => exact Or.inl rfl
        | some u =>
          right
          rw [hart] at hempty
          by_cases hu : u = ""
          · rw [hu]
          · rw [strOrElse, if_neg hu] at hempty
            exact absurd hempty hu
      · rw [if_neg hurl] at h
        split at h
        · rw [Except.error.injEq] at h
          exact absurd h (by decide)
        · exact absurd h (by simp)
    · intro h
      have hempty : strOrElse songData.artworkUrl100 "" = "" := by
        cases h with
        | inl h => rw [h]; rfl
        | inr h => rw [h]; rfl
      rw [if_pos ((replaceFirst_eq_empty_iff _).mpr hempty)]
  · intro env2 hg hi hf
    simp only [processFile, hg, hi, hres]
    by_cases h1 : env.gemini.title = "" || env.gemini.artist = ""
    · rw [if_pos h1, if_pos h1]
    · rw [if_neg h1, if_neg h1]
      by_cases h2 : !env.itunes.ok
      · rw [if_pos h2, if_pos h2]
      · rw [if_neg h2, if_neg h2]
        by_cases hurl :
            replaceFirst (strOrElse songData.artworkUrl100 "") "100x100" "600x600" = ""
        · rw [if_pos hurl, if_pos hurl]
        · rw [if_neg hurl, if_neg hurl, hf]

def exC5track : ItunesResult :=
  { trackName := some "Yesterday", artistName := some "The Beatles"
    collectionName := some "Help!", artworkUrl100 := some "http://x/100x100bb.jpg" }

def exC5env : ProcessEnv :=
  { gemini := { title := "Yesterday", artist := "The Beatles" }
    itunes := { ok := true, results := [exC5track] }
    artFetch := fun _ => { ok := true, blobType := "image/jpeg" } }

/-- A second CDN that agrees with the first only on the substituted URL. -/
def exC5env2 : ProcessEnv :=
  { gemini := exC5env.gemini, itunes := exC5env.itunes
    artFetch := fun u =>
      if u = "http://x/600x600bb.jpg" then { ok := true, blobType := "image/jpeg" }
      else { ok := false, blobType := "other" } }

theorem artworkUrl_substitution_witness :
    (exC5env.itunes.results = exC5track :: [] ∧
      exC5env.gemini.title ≠ "" ∧ exC5env.gemini.artist ≠ "" ∧ exC5env.itunes.ok = true ∧
      exC5env2.artFetch (replaceFirst (strOrElse exC5track.artworkUrl100 "") "100x100" "600x600") =
        exC5env.artFetch (replaceFirst (strOrElse exC5track.artworkUrl100 "") "100x100" "600x600")) ∧
    (processFile exC5env { name := "y.mp3" } = Except.error "Cover art not found." ↔
      (exC5track.artworkUrl100 = none ∨ exC5track.artworkUrl100 = some "")) ∧
    processFile exC5env2 { name := "y.mp3" } = processFile exC5env { name := "y.mp3" } :=
  ⟨⟨rfl, by decide, by decide, rfl, by decide⟩,
    (artworkUrl_substitution exC5env { name := "y.mp3" } exC5track [] rfl
      (by decide) (by decide) rfl).1,
    (artworkUrl_substitution exC5env { name := "y.mp3" } exC5track [] rfl
      (by decide) (by decide) rfl).2 exC5env2 rfl rfl (by decide)⟩

/-! ## Claim C6: status check on artwork downloads -/

def exC6result : SingleResult :=
  { artistName := "The Beatles", collectionName := "Help!"
    artworkUrl100 := "http://x/100x100bb.jpg" }

/-- A world whose catalog search succeeds but whose artwork CDN answers
with a non-2xx response carrying an error page body. -/
def exC6env : FetchInfoEnv :=
  { searchOk := true, results := [exC6result]
    artFetch := fun _ => { ok := false, blobType := "text/html" } }

def exC6state : SingleState :=
  { title := "Yesterday", artist := "", album := "", coverArtFile := none, error := none }

/-- The analogous world for the bulk pipeline: same track, same failing
CDN. -/
def exC6penv : ProcessEnv :=
  { gemini := { title := "Yesterday", artist := "The Beatles" }
    itunes := { ok := true
                results := [{ trackName := some "Yesterday", artistName := some "The Beatles",
                              collectionName := some "Help!",
                              artworkUrl100 := some "http://x/100x100bb.jpg" }] }
    artFetch := fun _ => { ok := false, blobType := "text/html" } }

/-- C6: the single-song path violates the required status check. On a
non-2xx artwork response, handleFetchInfo still attaches the response body
as the cover art file and reports no error, whereas processFile — the bulk
pipeline facing the same response — fails with the download error. The
artwork response status is never consulted on the single-song path. -/
theorem singleFetch_missing_status_check :
    exC6env.artFetch (replaceFirst exC6result.artworkUrl100 "100x100" "600x600") =
      { ok := false, blobType := "text/html" } ∧
    (handleFetchInfo exC6env exC6state).coverArtFile =
      some { name := "cover.jpg", type := "text/html" } ∧
    (handleFetchInfo exC6env exC6state).error = none ∧
    processFile exC6penv { name := "yesterday.mp3" } =
      Except.error "Failed to download cover art." := by
  refine ⟨by decide, by decide, by decide, rfl⟩

/-! ## Claim C7: statuses only move forward -/

/-- Height of a status along pending, processing, terminal. -/
def statusRank : Status → Nat
  | Status.pending => 0
  | Status.processing => 1
  | Status.success => 2
  | Status.error => 2

/-- C7: a batch-processor run only moves statuses forward. Positionally,
an item in success or error comes out untouched, an item can only be
pending afterwards by having been pending and skipped, and the rank never
drops; and the commit handler either leaves the staged list unchanged or
removes it entirely (the full batch clear), never editing single items. -/
theorem status_forward (envs : FileData → ProcessEnv) (s : QueueState)
    (hnd : ((s.stagedFiles.map fun sf => sf.id)).Nodup) :
    (∀ (i : Nat) (sf sf' : StagedFile), s.stagedFiles[i]? = some sf →
        (handleProcessQueue envs s).stagedFiles[i]? = some sf' →
        statusRank sf.status ≤ statusRank sf'.status ∧
        (sf.status = Status.success → sf' = sf) ∧
        (sf.status = Status.error → sf' = sf) ∧
        (sf'.status = Status.pending → sf' = sf)) ∧
    ∀ t : QueueState,
      (handleAddSongsToLibrary t).newState.stagedFiles = t.stagedFiles ∨
      (handleAddSongsToLibrary t).newState.stagedFiles = [] := by
  constructor
  · intro i sf sf' hget hget'
    rw [handleProcessQueue_spec envs s hnd] at hget'
    simp only [List.getElem?_map, hget, Option.map_some'] at hget'
    have hsf' : sf' = itemResult envs sf := by
      injection hget' with h
      exact h.symm
    subst hsf'
    by_cases hp : sf.status = Status.pending
    · rw [itemResult, if_pos hp]
      refine ⟨?_, ?_, ?_, ?_⟩
      · rw [hp]
        exact Nat.zero_le _
      · intro hsucc
        rw [hp] at hsucc
        cases hsucc
      · intro herr
        rw [hp] at herr
        cases herr
      · intro hpend
        rcases applyOutcome_status (processFile (envs sf.file) sf.file) sf with h | h <;>
          rw [h] at hpend <;> cases hpend
    · rw [itemResult_of_not_pending envs sf hp]
      exact ⟨Nat.le_refl _, fun _ => rfl, fun _ => rfl, fun _ => rfl⟩
  · intro t
    unfold handleAddSongsToLibrary
    by_cases h : (t.stagedFiles.filter fun sf => decide (sf.status = Status.success)).length = 0
    · rw [if_pos h]
      left
      rfl
    · rw [if_neg h]
      right
      rfl

def exC7item : StagedFile :=
  { id := "done", file := { name := "done.mp3" }, status := Status.success
    songDetails := some { title := "Yesterday", artist := "The Beatles", album := "Help!" }
    coverArtFile := some { name := "cover.jpg", type := "image/jpeg" }, error := none }

def exC7state : QueueState :=
  { stagedFiles := [exC7item], processedCount := 1, isProcessing := false }

def exC7envs : FileData → ProcessEnv := fun _ =>
  { gemini := { title := "Yesterday", artist := "The Beatles" }
    itunes := { ok := true, results := [] }
    artFetch := fun _ => { ok := true, blobType := "image/jpeg" } }

theorem status_forward_witness :
    (((exC7state.stagedFiles.map fun sf => sf.id)).Nodup ∧
      exC7state.stagedFiles[0]? = some exC7item ∧
      (handleProcessQueue exC7envs exC7state).stagedFiles[0]? = some exC7item) ∧
    (statusRank exC7item.status ≤ statusRank exC7item.status ∧
      (exC7item.status = Status.success → exC7item = exC7item) ∧
      (exC7item.status = Status.error → exC7item = exC7item) ∧
      (exC7item.status = Status.pending → exC7item = exC7item)) :=
  ⟨⟨by decide, by decide, by decide⟩,
    (status_forward exC7envs exC7state (by decide)).1 0 exC7item exC7item
      (by decide) (by decide)⟩

/-! ## Claim C8: a failed store write commits nothing and revokes the URLs -/

/-- C8: when the database write of App.addSongs fails, the in-memory songs
state is left exactly as it was — no partially committed song appears —
and the object URLs revoked are exactly the ones the call created for the
new songs (audio source and cover art source alike). -/
theorem addSongs_failure_no_partial_commit (clock : Nat → String)
    (prevSongs : List Song) (newSongsData : List SongData) :
    (addSongs clock false prevSongs newSongsData).songs = prevSongs ∧
    (addSongs clock false prevSongs newSongsData).revoked =
      (addSongs clock false prevSongs newSongsData).created := by
  constructor <;> simp [addSongs]

/-! ## Claim C9: record ids are timestamp plus title -/

/-- C9: every record submitted by App.addSongs carries the id formed from
the timestamp its iteration observed, a hyphen and the title; hence two
entries with equal titles whose iterations observe the same timestamp
receive equal ids — collisions are not defended against. -/
theorem songId_timestamp_title (clock : Nat → String) (dbOk : Bool)
    (prevSongs : List Song) (newSongsData : List SongData) :
    ((addSongs clock dbOk prevSongs newSongsData).stored.map fun r => r.id) =
      (newSongsData.enum.map fun p => mkSongId (clock p.1) p.2.title) ∧
    ∀ (i j : Nat) (di dj : SongData), newSongsData[i]? = some di →
      newSongsData[j]? = some dj → di.title = dj.title → clock i = clock j →
      ((addSongs clock dbOk prevSongs newSongsData).stored.map fun r => r.id)[i]? =
        ((addSongs clock dbOk prevSongs newSongsData).stored.map fun r => r.id)[j]? := by
  have hids : ((addSongs clock dbOk prevSongs newSongsData).stored.map fun r => r.id) =
      (newSongsData.enum.map fun p => mkSongId (clock p.1) p.2.title) := by
    cases dbOk <;>
      · show ((prepareStoredSongs clock newSongsData).map fun r => r.id) = _
        rw [prepareStoredSongs, List.map_map]
        rfl
  refine ⟨hids, ?_⟩
  intro i j di dj hi hj ht hc
  rw [hids, List.getElem?_map, List.getElem?_map, List.getElem?_enum, List.getElem?_enum,
    hi, hj]
  simp only [Option.map_some']
  rw [ht, hc]

def exC9data : SongData :=
  { title := "Same Song", artist := "Alice", album := "First"
    audioFile := { name := "one.mp3" }
    coverArtFile := { name := "cover.jpg", type := "image/jpeg" } }

def exC9data2 : SongData :=
  { title := "Same Song", artist := "Bob", album := "Second"
    audioFile := { name := "two.mp3" }
    coverArtFile := { name := "cover.jpg", type := "image/png" } }

/-- A clock stuck within one millisecond: both iterations observe the same
ISO timestamp. -/
def exC9clock : Nat → String := fun _ => "2024-05-01T12:00:00.000Z"

theorem songId_timestamp_title_witness :
    ([exC9data, exC9data2][0]? = some exC9data ∧
      [exC9data, exC9data2][1]? = some exC9data2 ∧
      exC9data.title = exC9data2.title ∧ exC9clock 0 = exC9clock 1) ∧
    ((addSongs exC9clock true [] [exC9data, exC9data2]).stored.map fun r => r.id)[0]? =
      ((addSongs exC9clock true [] [exC9data, exC9data2]).stored.map fun r => r.id)[1]? :=
  ⟨⟨rfl, rfl, rfl, rfl⟩,
    (songId_timestamp_title exC9clock true [] [exC9data, exC9data2]).2 0 1
      exC9data exC9data2 rfl rfl rfl rfl⟩

/-! ## Claim C10: the commit clears the whole batch -/

/-- C10: handleAddSongsToLibrary with no successful item changes nothing
and makes no store call; with at least one successful item it submits
exactly the SongData of the successful items — error and pending items are
discarded unpersisted — and then clears the whole staged list and resets
the progress counter to zero. -/
theorem commit_clears_batch (s : QueueState) :
    ((s.stagedFiles.filter fun sf => decide (sf.status = Status.success)) = [] →
      handleAddSongsToLibrary s = { newState := s, storeWrite := none }) ∧
    ((s.stagedFiles.filter fun sf => decide (sf.status = Status.success)) ≠ [] →
      (handleAddSongsToLibrary s).newState.stagedFiles = [] ∧
      (handleAddSongsToLibrary s).newState.processedCount = 0 ∧
      (handleAddSongsToLibrary s).storeWrite =
        some ((s.stagedFiles.filter fun sf => decide (sf.status = Status.success)).map
          stagedToSongData)) := by
  constructor
  · intro h
    unfold handleAddSongsToLibrary
    rw [if_pos (by rw [h]; rfl)]
  · intro h
    unfold handleAddSongsToLibrary
    rw [if_neg fun hl => h (List.length_eq_zero.mp hl)]
    exact ⟨rfl, rfl, rfl⟩

def exC10success : StagedFile :=
  { id := "s", file := { name := "s.mp3" }, status := Status.success
    songDetails := some { title := "Yesterday", artist := "The Beatles", album := "Help!" }
    coverArtFile := some { name := "cover.jpg", type := "image/jpeg" }, error := none }

def exC10error : StagedFile :=
  { id := "e", file := { name := "e.mp3" }, status := Status.error
    songDetails := none, coverArtFile := none, error := some "Song not found on iTunes." }

def exC10state : QueueState :=
  { stagedFiles := [exC10success, exC10error], processedCount := 2, isProcessing := false }

theorem commit_clears_batch_witness :
    ((exC10state.stagedFiles.filter fun sf => decide (sf.status = Status.success)) ≠ [] ∧
      (handleAddSongsToLibrary exC10state).newState.stagedFiles = [] ∧
      (handleAddSongsToLibrary exC10state).newState.processedCount = 0 ∧
      (handleAddSongsToLibrary exC10state).storeWrite =
        some ((exC10state.stagedFiles.filter fun sf =>
          decide (sf.status = Status.success)).map stagedToSongData)) ∧
    (handleAddSongsToLibrary exC10state).storeWrite =
      some [stagedToSongData exC10success] :=
  ⟨⟨by decide, ((commit_clears_batch exC10state).2 (by decide)).1,
      ((commit_clears_batch exC10state).2 (by decide)).2.1,
      ((commit_clears_batch exC10state).2 (by decide)).2.2⟩,
    by decide⟩
